import Mathlib

/-!
Verification of `scripts/aggiungi_copertine.py` (typebeatfinder).

The script has two parts:
* `get_cover_from_ibs(title, author)`: a best-effort cover-URL resolver that
  issues two HTTP GETs (search page, then detail page), extracts an ISBN-like
  token from the detail-page URL (or an `og:url` meta tag), and either builds a
  templated image URL from it or falls back to scanning the page for a jpg
  image node.
* `enrich_books_with_ibs_covers()`: loads a JSON catalog, iterates the records,
  skips records with a non-blank `cover_url` or a blank title, calls the
  resolver for the rest, and rewrites the whole catalog file after every
  processed (non-skipped) record.

The HTTP client, the HTML parser and the JSON store are external capabilities;
they are modelled abstractly: a fetch function returns either an error (a
raised exception) or an abstract `Page` holding exactly the selector results
the script queries, and the catalog store is an `Option (List Book)` (parsed
file content, `none` = file missing).  Python string operations used by the
script (`split`, `strip`, `in`, `startswith`) are embedded as structural
recursions on `List Char` so that they evaluate by `decide`/`rfl`.
-/

set_option autoImplicit false

namespace Copertine

/-! ### Python string primitives -/

/-- Python `str.startswith`: `s.startswith(p)`. -/
def pyStartswith (s p : String) : Bool :=
  p.data.isPrefixOf s.data

/-- Python's default `str.strip` character class (ASCII whitespace). -/
def pyIsSpace (c : Char) : Bool :=
  c = ' ' || c = '\t' || c = '\n' || c = '\x0d' || c = '\x0b' || c = '\x0c'

/-- Python `str.strip()`: drop leading and trailing whitespace. -/
def pyStrip (s : String) : String :=
  String.mk (((s.data.dropWhile (pyIsSpace ·)).reverse.dropWhile (pyIsSpace ·)).reverse)

/-- Does `sep` occur (as a contiguous sublist) in `xs`?  Python `sep in s`
for a non-empty `sep`. -/
def containsSubAux (sep : List Char) : List Char → Bool
  | [] => false
  | c :: cs => sep.isPrefixOf (c :: cs) || containsSubAux sep cs

/-- Python `sep in s` for the non-empty separators used by the script. -/
def pyIn (sep s : String) : Bool :=
  containsSubAux sep.data s.data

/-- Fuel-indexed worker for Python `str.split(sep)` (non-empty `sep`): scan
left to right, cut at each non-overlapping occurrence of `sep`.  Structural
recursion on the fuel keeps it kernel-evaluable; `fuel = xs.length` is always
enough because every step consumes at least one character. -/
def splitAux (sep : List Char) : Nat → List Char → List (List Char)
  | _, [] => [[]]
  | 0, xs => [xs]
  | Nat.succ f, c :: cs =>
    if sep.isPrefixOf (c :: cs) then
      [] :: splitAux sep f (List.drop (sep.length - 1) cs)
    else
      match splitAux sep f cs with
      | [] => [[c]]
      | h :: t => (c :: h) :: t

/-- Python `s.split(sep)` for a non-empty `sep`. -/
def pySplit (s sep : String) : List String :=
  (splitAux sep.data s.data.length s.data).map String.mk

/-- Python truthiness of an optional string (`None` and `""` are falsy). -/
def pyTruthy : Option String → Bool
  | none => false
  | some s => s ≠ ""

/-! ### Abstract pages and the environment

A `Page` records the results of exactly the DOM queries the script performs on
a parsed document.  Attribute lookups (`.get("href")` etc.) return
`Option String` (`none` = attribute absent, which makes a later method call on
it raise `AttributeError`). -/

/-- Result of `select_one(".description a")` inside a search item. -/
structure AnchorEl where
  href : Option String
  deriving DecidableEq, Repr

/-- One node matched by `select(".search-item-book")`. -/
structure SearchItem where
  descriptionAnchor : Option AnchorEl
  deriving DecidableEq, Repr

/-- Result of `select_one('meta[property="og:url"]')`. -/
structure MetaEl where
  content : Option String
  deriving DecidableEq, Repr

/-- Result of `select_one('img[src*="/images/"][src*=".jpg"]')`. -/
structure ImgEl where
  src : Option String
  deriving DecidableEq, Repr

/-- The selector results the script reads off a fetched, parsed document. -/
structure Page where
  searchItems : List SearchItem
  ogUrlMeta : Option MetaEl
  coverImg : Option ImgEl
  deriving DecidableEq, Repr

/-- External capabilities of the resolver: URL quoting (`urllib.parse.quote`)
and HTTP fetch + parse (`requests.get` + `raise_for_status` +
`BeautifulSoup`).  `fetch` returns `.error e` when the request raises. -/
structure Env where
  quote : String → String
  fetch : String → Except String Page

/-! ### The resolver `get_cover_from_ibs` -/

/-- The search URL built at the top of `get_cover_from_ibs`. -/
def searchUrl (env : Env) (title author : String) : String :=
  "https://www.ibs.it/search/?ts=as&query=" ++ env.quote (title ++ " " ++ author)

/-- Translation of `if not x.startswith("http"): x = "https://www.ibs.it" + x` — the
normalization applied to the detail-page href and to the fallback image src. -/
def absolutize (u : String) : String :=
  if pyStartswith u "http" then u else "https://www.ibs.it" ++ u

/-- Translation of `book_link.split("/e/")[1].strip()` guarded by `"/e/" in book_link`
(lines 76-77 of the script).  Under the guard the split has at least two
parts, so the `[1]` index never raises; `getD` is only a total-function
formality. -/
def extractIsbnFromLink (book_link : String) : Option String :=
  if pyIn "/e/" book_link then
    some (pyStrip (((pySplit book_link "/e/").get? 1).getD ""))
  else
    none

/-- Lines 75-84 of the script: try the detail-page URL first, then the
`og:url` meta tag.  Note `if not isbn:` — an *empty* token from the URL also
falls through to the meta tag.  When the meta guard `"/e/" in content` holds,
`content` is necessarily present, so reading it with default `""` agrees with
the script's unguarded second `.get("content")`. -/
def extractIsbn (book_link : String) (book_soup : Page) : Option String :=
  let isbn := extractIsbnFromLink book_link
  if pyTruthy isbn then isbn
  else
    match book_soup.ogUrlMeta with
    | some metaEl =>
      if pyIn "/e/" (metaEl.content.getD "") then
        some (pyStrip (((pySplit (metaEl.content.getD "") "/e/").get? 1).getD ""))
      else isbn
    | none => isbn

/-- Lines 93-104: scan the detail page for a jpg image node.  A present node
whose `src` attribute is absent makes `cover_url.startswith` raise
`AttributeError` (caught at the top level of the resolver). -/
def imageScan (book_soup : Page) : Except String String :=
  match book_soup.coverImg with
  | none => .ok ""
  | some imgEl =>
    match imgEl.src with
    | none => .error "AttributeError: NoneType object has no attribute startswith"
    | some src => .ok (absolutize src)

/-- Lines 73-104: everything done with the fetched detail page — extract the
identifier, accept it when truthy and at least 10 characters long (returning
the templated image URL), otherwise fall back to the image scan. -/
def detailStage (book_soup : Page) (book_link : String) : Except String String :=
  let isbn := extractIsbn book_link book_soup
  if pyTruthy isbn && decide (10 ≤ (isbn.getD "").length) then
    .ok ("https://www.ibs.it/images/" ++ isbn.getD "" ++ "_0_0_536_0_75.jpg")
  else
    imageScan book_soup

/-- The body of the `try:` block of `get_cover_from_ibs`: `.error e` models a
raised exception propagating out of a statement, `.ok url` a `return`. -/
def get_cover_core (env : Env) (title author : String) : Except String String :=
  match env.fetch (searchUrl env title author) with
  | .error e => .error e
  | .ok soup =>
    match soup.searchItems with
    | [] => .ok ""
    | first_book :: _ =>
      match first_book.descriptionAnchor with
      | none => .ok ""
      | some book_link_element =>
        match book_link_element.href with
        | none =>
          -- `book_link.get("href")` returned None; `None.startswith` raises.
          .error "AttributeError: NoneType object has no attribute startswith"
        | some href =>
          let book_link := absolutize href
          match env.fetch book_link with
          | .error e => .error e
          | .ok book_soup => detailStage book_soup book_link

/-- Wrapper `get_cover_from_ibs`: the `except Exception` clause converts any raised
exception into the empty-string "not found" result.  Totality of this Lean
function is the model of "never raises to its caller". -/
def get_cover_from_ibs (env : Env) (title author : String) : String :=
  match get_cover_core env title author with
  | .ok s => s
  | .error _ => ""

/-- The console line printed by the `except` clause
(`print(f"[IBS] Errore per '{title}': {str(e)}")`), `none` when no exception
was raised. -/
def get_cover_log (env : Env) (title author : String) : Option String :=
  match get_cover_core env title author with
  | .ok _ => none
  | .error e => some ("[IBS] Errore per '" ++ title ++ "': " ++ e)

/-! ### The catalog and the enricher `enrich_books_with_ibs_covers`

A book record is a JSON object; the script reads and writes only string
fields, so a record is modelled as an ordered association list of string
fields (Python dicts preserve insertion order, as does `json.dump`). -/

/-- One record of `books.json`. -/
structure Book where
  fields : List (String × String)
  deriving DecidableEq, Repr

/-- Python `book.get(k)`. -/
def Book.get (b : Book) (k : String) : Option String :=
  (b.fields.find? (fun p => p.1 = k)).map Prod.snd

/-- Python `book[k] = v`: replace in place when the key exists, else append
(dict insertion-order semantics). -/
def Book.set (b : Book) (k v : String) : Book :=
  if b.fields.any (fun p => p.1 = k) then
    ⟨b.fields.map (fun p => if p.1 = k then (k, v) else p)⟩
  else
    ⟨b.fields ++ [(k, v)]⟩

/-- Python `book.get("title", "")`. -/
def bookTitle (b : Book) : String := (b.get "title").getD ""

/-- Python `book.get("author", "")`. -/
def bookAuthor (b : Book) : String := (b.get "author").getD ""

/-- The skip guard `if book.get("cover_url") and book.get("cover_url").strip():`
(truthy value AND non-blank after stripping). -/
def hasCover (b : Book) : Bool :=
  match b.get "cover_url" with
  | none => false
  | some c => c ≠ "" && pyStrip c ≠ ""

/-- Outcome of one iteration of the enrichment loop on one record:
the (possibly updated) record, whether the resolver was invoked, whether the
catalog file was rewritten, and whether the `updated` counter was bumped. -/
structure StepResult where
  book : Book
  called : Bool
  saved : Bool
  updatedFlag : Bool
  deriving DecidableEq, Repr

/-- Lines 125-156 of the script, one loop iteration: skip on existing cover,
skip on blank title, otherwise resolve; set the field on a non-empty result;
saving (and the 2-second sleep) happens for every non-skipped record. -/
def bookStep (env : Env) (book : Book) : StepResult :=
  let title := (book.get "title").getD ""
  let author := (book.get "author").getD ""
  if hasCover book then
    { book := book, called := false, saved := false, updatedFlag := false }
  else if title = "" then
    { book := book, called := false, saved := false, updatedFlag := false }
  else
    let cover_url := get_cover_from_ibs env title author
    if cover_url ≠ "" then
      { book := book.set "cover_url" cover_url, called := true, saved := true,
        updatedFlag := true }
    else
      { book := book, called := true, saved := true, updatedFlag := false }

/-- Aggregate outcome of the enrichment loop: the final on-disk list, the
number of full-file rewrites, the `updated` and `processed` counters, and the
(title, author) arguments of every resolver invocation, in order. -/
structure LoopOut where
  file : List Book
  writes : Nat
  updated : Nat
  processed : Nat
  calls : List (String × String)
  deriving DecidableEq, Repr

/-- The `for book in books:` loop.  `done` is the already-processed portion of
the in-memory list, `todo` the rest, `file` the current content of the backing
file; a save rewrites the file with the whole current list. -/
def enrichLoop (env : Env) : List Book → List Book → List Book → LoopOut
  | _, [], file =>
    { file := file, writes := 0, updated := 0, processed := 0, calls := [] }
  | done, book :: todo, file =>
    let r := bookStep env book
    let file' := if r.saved then done ++ r.book :: todo else file
    let rest := enrichLoop env (done ++ [r.book]) todo file'
    { file := rest.file
      writes := (if r.saved then 1 else 0) + rest.writes
      updated := (if r.updatedFlag then 1 else 0) + rest.updated
      processed := rest.processed + 1
      calls := (if r.called then [(bookTitle book, bookAuthor book)] else []) ++ rest.calls }

/-- Observable outcome of `enrich_books_with_ibs_covers`.  `file` is the final
content of `books.json` (`none` = still missing), `report` the
catalog-missing console line, `summary` the final completion line. -/
structure EnrichOut where
  file : Option (List Book)
  writes : Nat
  updated : Nat
  processed : Nat
  calls : List (String × String)
  report : Option String
  summary : Option String
  deriving DecidableEq, Repr

/-- Function `enrich_books_with_ibs_covers`: `store` is the parsed content of the file
at `books_path` (`none` = the file does not exist, making `os.path.exists`
false). -/
def enrich_books_with_ibs_covers (env : Env) (books_path : String)
    (store : Option (List Book)) : EnrichOut :=
  match store with
  | none =>
    { file := none, writes := 0, updated := 0, processed := 0, calls := []
      report := some ("File non trovato: " ++ books_path), summary := none }
  | some books =>
    let r := enrichLoop env [] books books
    { file := some r.file, writes := r.writes, updated := r.updated
      processed := r.processed, calls := r.calls, report := none
      summary := some ("Operazione completata: " ++ toString r.updated ++
        " copertine aggiunte su " ++ toString books.length ++ " libri.") }

/-! ### Structural lemmas about the loop -/

/-- Skipped records are returned unchanged. -/
theorem bookStep_book_of_not_saved (env : Env) (b : Book)
    (h : (bookStep env b).saved = false) : (bookStep env b).book = b := by
  simp only [bookStep] at h ⊢
  split_ifs at h ⊢ <;> simp_all

/-- The save flag is exactly the claim's eligibility condition: neither
skipped for an existing cover nor for a blank title. -/
theorem bookStep_saved_eq (env : Env) (b : Book) :
    (bookStep env b).saved = (!hasCover b && !(bookTitle b = "")) := by
  simp only [bookStep, bookTitle]
  split_ifs <;> simp_all

/-- The resolver is invoked exactly for eligible records. -/
theorem bookStep_called_eq (env : Env) (b : Book) :
    (bookStep env b).called = (!hasCover b && !(bookTitle b = "")) := by
  simp only [bookStep, bookTitle]
  split_ifs <;> simp_all

/-- Final file content of the loop: every record is replaced by its
`bookStep` image (skips leave it unchanged, saves flush the current list, and
an unsaved suffix was already part of the last flushed list unmodified). -/
theorem enrichLoop_file (env : Env) (todo : List Book) : ∀ done : List Book,
    (enrichLoop env done todo (done ++ todo)).file
      = done ++ todo.map (fun b => (bookStep env b).book) := by
  induction todo with
  | nil => intro done; simp [enrichLoop]
  | cons b todo ih =>
    intro done
    show (enrichLoop env done (b :: todo) (done ++ b :: todo)).file = _
    unfold enrichLoop
    simp only
    by_cases hs : (bookStep env b).saved = true
    · have : (if (bookStep env b).saved = true
          then done ++ (bookStep env b).book :: todo
          else done ++ b :: todo) = (done ++ [(bookStep env b).book]) ++ todo := by
        simp [hs]
      rw [this]
      have := ih (done ++ [(bookStep env b).book])
      simp only [List.append_assoc] at this ⊢
      simpa using this
    · have hb : (bookStep env b).book = b :=
        bookStep_book_of_not_saved env b (by simpa using hs)
      have : (if (bookStep env b).saved = true
          then done ++ (bookStep env b).book :: todo
          else done ++ b :: todo) = (done ++ [(bookStep env b).book]) ++ todo := by
        simp [hs, hb]
      rw [this]
      have := ih (done ++ [(bookStep env b).book])
      simp only [List.append_assoc] at this ⊢
      simpa [hb] using this

/-- Number of rewrites of the loop: one per record with the save flag. -/
theorem enrichLoop_writes (env : Env) (todo : List Book) :
    ∀ (done file : List Book),
    (enrichLoop env done todo file).writes
      = (todo.filter (fun b => (bookStep env b).saved)).length := by
  induction todo with
  | nil => intro done file; simp [enrichLoop]
  | cons b todo ih =>
    intro done file
    unfold enrichLoop
    simp only [List.filter_cons]
    by_cases hs : (bookStep env b).saved = true
    · simp [hs, ih, Nat.add_comm]
    · simp [hs, ih]

/-- Resolver invocations of the loop, in order, with their arguments. -/
theorem enrichLoop_calls (env : Env) (todo : List Book) :
    ∀ (done file : List Book),
    (enrichLoop env done todo file).calls
      = todo.filterMap (fun b =>
          if (bookStep env b).called then some (bookTitle b, bookAuthor b) else none) := by
  induction todo with
  | nil => intro done file; simp [enrichLoop]
  | cons b todo ih =>
    intro done file
    unfold enrichLoop
    simp only [List.filterMap_cons]
    by_cases hc : (bookStep env b).called = true
    · simp [hc, ih]
    · simp [hc, ih]

/-- Mapping a function that fixes every element of a list is the identity. -/
theorem map_eq_self_of_fix {α : Type} (f : α → α) :
    ∀ l : List α, (∀ b ∈ l, f b = b) → l.map f = l
  | [], _ => rfl
  | b :: bs, h => by
    simp only [List.map_cons]
    rw [h b (List.mem_cons_self b bs),
      map_eq_self_of_fix f bs (fun x hx => h x (List.mem_cons_of_mem b hx))]

/-! ### Concrete environments for witnesses and counterexamples -/

/-- Fixture environment: `quote` is the identity and `fetch` answers the
search URL with `sp` and every other URL (the detail page) with `dp`. -/
def mkEnv (sp dp : Page) : Env :=
  { quote := fun s => s
    fetch := fun u =>
      if pyStartswith u "https://www.ibs.it/search/" then .ok sp else .ok dp }

/-- Environment in which every HTTP request raises. -/
def envErr : Env := { quote := fun s => s, fetch := fun _ => .error "boom" }

/-- Search page whose first result links to a detail page with a 10-character
`/e/` token. -/
def spTok10 : Page :=
  { searchItems := [{ descriptionAnchor := some { href := some "/x/e/1234567890" } }]
    ogUrlMeta := none, coverImg := none }

/-- Search page whose first result links to a detail page with a 9-character
`/e/` token. -/
def spTok9 : Page :=
  { searchItems := [{ descriptionAnchor := some { href := some "/x/e/123456789" } }]
    ogUrlMeta := none, coverImg := none }

/-- Detail page with no identifier source and no image. -/
def dpEmpty : Page := { searchItems := [], ogUrlMeta := none, coverImg := none }

/-- Detail page carrying a fallback jpg image node. -/
def dpImg : Page :=
  { searchItems := [], ogUrlMeta := none, coverImg := some { src := some "/images/f.jpg" } }

/-! ### The claims -/

/-- C7.  If the catalog file does not exist, the pass reports
`File non trovato: <path>` and returns: nothing is processed, no resolver
call is made, no file is written, and (being a total Lean function) nothing
is raised. -/
theorem c7_missing_catalog_aborts (env : Env) (books_path : String) :
    enrich_books_with_ibs_covers env books_path none =
      { file := none, writes := 0, updated := 0, processed := 0, calls := []
        report := some ("File non trovato: " ++ books_path), summary := none } := rfl

/-- C2.  One run over a present catalog rewrites the backing file exactly once
per eligible record — a record neither skipped for an existing cover nor for a
blank title — whether or not a cover was found, and skipped records cause no
rewrite. -/
theorem c2_writes_once_per_eligible (env : Env) (books_path : String)
    (books : List Book) :
    (enrich_books_with_ibs_covers env books_path (some books)).writes
      = (books.filter (fun b => !hasCover b && !(bookTitle b = ""))).length := by
  show (enrichLoop env [] books books).writes = _
  rw [enrichLoop_writes]
  simp only [bookStep_saved_eq]

/-- C3.  Whatever the fetch/parse capabilities do, any exception raised inside
the resolver body is caught at its top level, converted to the empty-string
"not found" result, and logged with the title and the error text; the wrapper
`get_cover_from_ibs` is a total function, so it never raises to its caller. -/
theorem c3_exception_caught_logged (env : Env) (title author e : String)
    (h : get_cover_core env title author = .error e) :
    get_cover_from_ibs env title author = "" ∧
    get_cover_log env title author
      = some ("[IBS] Errore per '" ++ title ++ "': " ++ e) := by
  constructor
  · simp [get_cover_from_ibs, h]
  · simp [get_cover_log, h]

/-- Witness for C3 at a concrete raising environment. -/
theorem c3_exception_caught_logged_witness :
    get_cover_core envErr "t" "a" = .error "boom" ∧
    get_cover_from_ibs envErr "t" "a" = "" ∧
    get_cover_log envErr "t" "a"
      = some ("[IBS] Errore per '" ++ "t" ++ "': " ++ "boom") :=
  ⟨rfl, c3_exception_caught_logged envErr "t" "a" "boom" rfl⟩

/-- C6.  A record whose title is blank or missing never has the resolver
invoked for it: its loop iteration carries `called = false`, and the loop's
resolver invocations are exactly the per-record `called` flags. -/
theorem c6_blank_title_never_resolved (env : Env) (books_path : String)
    (books : List Book) (i : Nat) (hi : i < books.length)
    (ht : bookTitle books[i] = "") :
    (bookStep env books[i]).called = false ∧
    (enrich_books_with_ibs_covers env books_path (some books)).calls
      = books.filterMap (fun b =>
          if (bookStep env b).called then some (bookTitle b, bookAuthor b) else none) := by
  constructor
  · rw [bookStep_called_eq]
    simp [ht]
  · show (enrichLoop env [] books books).calls = _
    exact enrichLoop_calls env books [] books

/-- Witness for C6: a one-record catalog whose record has no title field. -/
theorem c6_blank_title_never_resolved_witness :
    bookTitle (Book.mk [("author", "a")]) = "" ∧
    (bookStep envErr (Book.mk [("author", "a")])).called = false ∧
    (enrich_books_with_ibs_covers envErr "p" (some [Book.mk [("author", "a")]])).calls
      = [] := by
  have h := c6_blank_title_never_resolved envErr "p" [Book.mk [("author", "a")]] 0
    (by decide) (by decide)
  refine ⟨by decide, h.1, ?_⟩
  rw [h.2]
  decide

/-- C9.  Round-trip with zero changes: when no record's iteration alters it,
the backing file ends up holding exactly the original record list — same
order, same field values.  (Parsing and serialisation themselves are the JSON
library, an external capability; the store is modelled at the record level.) -/
theorem c9_zero_change_roundtrip (env : Env) (books_path : String)
    (books : List Book) (h : ∀ b ∈ books, (bookStep env b).book = b) :
    (enrich_books_with_ibs_covers env books_path (some books)).file = some books := by
  show some (enrichLoop env [] books books).file = _
  have hfile := enrichLoop_file env books []
  simp only [List.nil_append] at hfile
  rw [hfile, map_eq_self_of_fix _ books h]

/-- Witness for C9: one already-covered record plus one eligible record whose
lookup fails, so a save happens and the stored list is unchanged. -/
theorem c9_zero_change_roundtrip_witness :
    (∀ b ∈ [Book.mk [("title", "t1"), ("cover_url", "u1")], Book.mk [("title", "t2")]],
      (bookStep envErr b).book = b) ∧
    (enrich_books_with_ibs_covers envErr "p"
        (some [Book.mk [("title", "t1"), ("cover_url", "u1")], Book.mk [("title", "t2")]])).file
      = some [Book.mk [("title", "t1"), ("cover_url", "u1")], Book.mk [("title", "t2")]] := by
  have h : ∀ b ∈ [Book.mk [("title", "t1"), ("cover_url", "u1")], Book.mk [("title", "t2")]],
      (bookStep envErr b).book = b := by decide
  exact ⟨h, c9_zero_change_roundtrip envErr "p" _ h⟩

/-- C1 fails as stated: the skip guard checks *blankness* (truthiness after
`strip`), not mere non-emptiness.  A record whose `cover_url` is the
non-empty string `" "` is re-resolved and overwritten. -/
theorem c1_counterexample :
    ((Book.mk [("title", "t"), ("cover_url", " ")]).get "cover_url" = some " " ∧
      " " ≠ "") ∧
    (enrich_books_with_ibs_covers (mkEnv spTok10 dpEmpty) "p"
        (some [Book.mk [("title", "t"), ("cover_url", " ")]])).calls = [("t", "")] ∧
    (enrich_books_with_ibs_covers (mkEnv spTok10 dpEmpty) "p"
        (some [Book.mk [("title", "t"), ("cover_url", " ")]])).file
      = some [Book.mk [("title", "t"),
          ("cover_url", "https://www.ibs.it/images/1234567890_0_0_536_0_75.jpg")]] := by
  decide

/-- C1 amended.  A record whose `cover_url` is non-blank — truthy and
non-empty after stripping whitespace, i.e. the code's `hasCover` guard — is
never passed to the resolver and survives the run unaltered: its iteration
has `called = false` and leaves the record unchanged, and the final file is
exactly the per-record iteration images, so position `i` still holds the
original record. -/
theorem c1_nonblank_cover_never_touched (env : Env) (books_path : String)
    (books : List Book) (i : Nat) (hi : i < books.length)
    (hc : hasCover books[i] = true) :
    (bookStep env books[i]).called = false ∧
    (bookStep env books[i]).book = books[i] ∧
    (enrich_books_with_ibs_covers env books_path (some books)).file
      = some (books.map (fun b => (bookStep env b).book)) ∧
    (books.map (fun b => (bookStep env b).book))[i]? = some books[i] := by
  have hcall : (bookStep env books[i]).called = false := by
    rw [bookStep_called_eq]; simp [hc]
  have hsave : (bookStep env books[i]).saved = false := by
    rw [bookStep_saved_eq]; simp [hc]
  have hbook := bookStep_book_of_not_saved env books[i] hsave
  refine ⟨hcall, hbook, ?_, ?_⟩
  · show some (enrichLoop env [] books books).file = _
    have hfile := enrichLoop_file env books []
    simp only [List.nil_append] at hfile
    rw [hfile]
  · rw [List.getElem?_map, List.getElem?_eq_getElem hi]
    simp [hbook]

/-- Witness for the amended C1: a covered record in an environment where the
resolver would find a cover if it were (wrongly) invoked. -/
theorem c1_nonblank_cover_never_touched_witness :
    hasCover (Book.mk [("title", "t"), ("cover_url", "u")]) = true ∧
    (bookStep (mkEnv spTok10 dpEmpty) (Book.mk [("title", "t"), ("cover_url", "u")])).called
      = false ∧
    (enrich_books_with_ibs_covers (mkEnv spTok10 dpEmpty) "p"
        (some [Book.mk [("title", "t"), ("cover_url", "u")]])).file
      = some ([Book.mk [("title", "t"), ("cover_url", "u")]].map
          (fun b => (bookStep (mkEnv spTok10 dpEmpty) b).book)) := by
  have h := c1_nonblank_cover_never_touched (mkEnv spTok10 dpEmpty) "p"
    [Book.mk [("title", "t"), ("cover_url", "u")]] 0 (by decide) (by decide)
  exact ⟨by decide, h.1, h.2.2.1⟩

/-- Under successful fetches and navigation down to the detail page, an
extracted identifier of length at least 10 makes the resolver return the
templated image URL built from it (lines 86-90). -/
theorem get_cover_core_templated (env : Env) (title author : String)
    (soup : Page) (item : SearchItem) (restI : List SearchItem)
    (anchor : AnchorEl) (href : String) (detail : Page) (s : String)
    (h1 : env.fetch (searchUrl env title author) = .ok soup)
    (h2 : soup.searchItems = item :: restI)
    (h3 : item.descriptionAnchor = some anchor)
    (h4 : anchor.href = some href)
    (h5 : env.fetch (absolutize href) = .ok detail)
    (h6 : extractIsbn (absolutize href) detail = some s)
    (h7 : 10 ≤ s.length) :
    get_cover_core env title author
      = .ok ("https://www.ibs.it/images/" ++ s ++ "_0_0_536_0_75.jpg") := by
  have hs : s ≠ "" := by
    intro hs0
    rw [hs0] at h7
    exact absurd h7 (by decide)
  simp only [get_cover_core, h1, h2, h3, h4, h5]
  simp only [detailStage, h6, Option.getD_some]
  have ht : pyTruthy (some s) = true := by simp [pyTruthy, hs]
  simp [ht, h7]

/-- C4.  When the finally extracted token has length 9 or less, the
identifier branch is not taken: the resolver's result is exactly the
image-scan fallback on the detail page. -/
theorem c4_short_token_scans_images (env : Env) (title author : String)
    (soup : Page) (item : SearchItem) (restI : List SearchItem)
    (anchor : AnchorEl) (href : String) (detail : Page) (s : String)
    (h1 : env.fetch (searchUrl env title author) = .ok soup)
    (h2 : soup.searchItems = item :: restI)
    (h3 : item.descriptionAnchor = some anchor)
    (h4 : anchor.href = some href)
    (h5 : env.fetch (absolutize href) = .ok detail)
    (h6 : extractIsbn (absolutize href) detail = some s)
    (h7 : s.length ≤ 9) :
    get_cover_core env title author = imageScan detail := by
  simp only [get_cover_core, h1, h2, h3, h4, h5]
  simp only [detailStage, h6, Option.getD_some]
  have hb : (pyTruthy (some s) && decide (10 ≤ s.length)) = false := by
    have : ¬ (10 ≤ s.length) := by omega
    simp [this]
  simp [hb]

/-- Witness for C4: a 9-character token and a detail page carrying a jpg
node, resolved through the fallback. -/
theorem c4_short_token_scans_images_witness :
    extractIsbn (absolutize "/x/e/123456789") dpImg = some "123456789" ∧
    ("123456789" : String).length ≤ 9 ∧
    get_cover_core (mkEnv spTok9 dpImg) "t" "a" = imageScan dpImg := by
  refine ⟨by decide, by decide, ?_⟩
  exact c4_short_token_scans_images (mkEnv spTok9 dpImg) "t" "a" spTok9
    { descriptionAnchor := some { href := some "/x/e/123456789" } } []
    { href := some "/x/e/123456789" } "/x/e/123456789" dpImg "123456789"
    rfl rfl rfl rfl rfl (by decide) (by decide)

/-- C5.  Resolution is a function of the fetched pages (the statement's
right-hand side depends only on the extracted token), and whenever an
acceptable identifier (length ≥ 10) exists, the templated identifier URL is
returned even though the image-scan fallback would also find an image. -/
theorem c5_identifier_preferred_over_fallback (env : Env) (title author : String)
    (soup : Page) (item : SearchItem) (restI : List SearchItem)
    (anchor : AnchorEl) (href : String) (detail : Page) (s src : String)
    (h1 : env.fetch (searchUrl env title author) = .ok soup)
    (h2 : soup.searchItems = item :: restI)
    (h3 : item.descriptionAnchor = some anchor)
    (h4 : anchor.href = some href)
    (h5 : env.fetch (absolutize href) = .ok detail)
    (h6 : extractIsbn (absolutize href) detail = some s)
    (h7 : 10 ≤ s.length)
    (h8 : detail.coverImg = some { src := some src }) :
    get_cover_from_ibs env title author
      = "https://www.ibs.it/images/" ++ s ++ "_0_0_536_0_75.jpg" := by
  unfold get_cover_from_ibs
  rw [get_cover_core_templated env title author soup item restI anchor href detail s
    h1 h2 h3 h4 h5 h6 h7]

/-- Witness for C5: a 10-character token together with a present fallback
image; the identifier URL wins. -/
theorem c5_identifier_preferred_over_fallback_witness :
    extractIsbn (absolutize "/x/e/1234567890") dpImg = some "1234567890" ∧
    dpImg.coverImg = some { src := some "/images/f.jpg" } ∧
    get_cover_from_ibs (mkEnv spTok10 dpImg) "t" "a"
      = "https://www.ibs.it/images/" ++ "1234567890" ++ "_0_0_536_0_75.jpg" := by
  refine ⟨by decide, rfl, ?_⟩
  exact c5_identifier_preferred_over_fallback (mkEnv spTok10 dpImg) "t" "a" spTok10
    { descriptionAnchor := some { href := some "/x/e/1234567890" } } []
    { href := some "/x/e/1234567890" } "/x/e/1234567890" dpImg "1234567890" "/images/f.jpg"
    rfl rfl rfl rfl rfl (by decide) (by decide) rfl

/-- C8.  URL normalization: strings already starting with `"http"` are used
unchanged, others get the site origin prefixed; the detail page is fetched at
exactly the normalized href, and the fallback path returns exactly the
normalized image src. -/
theorem c8_relative_links_normalized :
    (∀ u, pyStartswith u "http" = true → absolutize u = u) ∧
    (∀ u, pyStartswith u "http" = false → absolutize u = "https://www.ibs.it" ++ u) ∧
    (∀ (env : Env) (title author : String) (soup : Page) (item : SearchItem)
        (restI : List SearchItem) (anchor : AnchorEl) (href : String),
      env.fetch (searchUrl env title author) = .ok soup →
      soup.searchItems = item :: restI →
      item.descriptionAnchor = some anchor →
      anchor.href = some href →
      get_cover_core env title author
        = (env.fetch (absolutize href)).bind
            (fun book_soup => detailStage book_soup (absolutize href))) ∧
    (∀ (book_soup : Page) (src : String),
      book_soup.coverImg = some { src := some src } →
      imageScan book_soup = .ok (absolutize src)) := by
  refine ⟨?_, ?_, ?_, ?_⟩
  · intro u hu; simp [absolutize, hu]
  · intro u hu; simp [absolutize, hu]
  · intro env title author soup item restI anchor href h1 h2 h3 h4
    simp only [get_cover_core, h1, h2, h3, h4]
    cases hfd : env.fetch (absolutize href) <;> simp [hfd, Except.bind]
  · intro book_soup src h
    simp [imageScan, h]

/-- Witness for C8 at concrete relative and absolute strings and a concrete
run. -/
theorem c8_relative_links_normalized_witness :
    absolutize "http://a" = "http://a" ∧
    absolutize "/x" = "https://www.ibs.it" ++ "/x" ∧
    get_cover_core (mkEnv spTok9 dpImg) "t" "a"
      = ((mkEnv spTok9 dpImg).fetch (absolutize "/x/e/123456789")).bind
          (fun book_soup => detailStage book_soup (absolutize "/x/e/123456789")) ∧
    imageScan dpImg = .ok (absolutize "/images/f.jpg") := by
  refine ⟨?_, ?_, ?_, ?_⟩
  · exact c8_relative_links_normalized.1 "http://a" (by decide)
  · exact c8_relative_links_normalized.2.1 "/x" (by decide)
  · exact c8_relative_links_normalized.2.2.1 (mkEnv spTok9 dpImg) "t" "a" spTok9
      { descriptionAnchor := some { href := some "/x/e/123456789" } } []
      { href := some "/x/e/123456789" } "/x/e/123456789" rfl rfl rfl rfl
  · exact c8_relative_links_normalized.2.2.2 dpImg "/images/f.jpg" rfl

/-- When the separator does not occur in the input, the fuel-indexed split
returns the whole input as its only part. -/
theorem splitAux_of_not_contains (sep : List Char) :
    ∀ (fuel : Nat) (xs : List Char), containsSubAux sep xs = false →
      splitAux sep fuel xs = [xs]
  | fuel, [], _ => by cases fuel <;> rfl
  | 0, _ :: _, _ => rfl
  | Nat.succ f, c :: cs, h => by
    simp only [containsSubAux, Bool.or_eq_false_iff] at h
    simp only [splitAux, h.1, Bool.false_eq_true, if_false]
    rw [splitAux_of_not_contains sep f cs h.2]

/-- Producing at least two parts under `split` means the separator occurs in
the string (the converse direction of Python's `sep in s`). -/
theorem pyIn_of_pySplit_cons_cons (s sep pre tok : String) (rest : List String)
    (h : pySplit s sep = pre :: tok :: rest) : pyIn sep s = true := by
  by_contra hin
  have hin' : containsSubAux sep.data s.data = false := by
    simpa [pyIn] using hin
  rw [pySplit, splitAux_of_not_contains sep.data s.data.length s.data hin'] at h
  simp at h

/-- The extracted link token is exactly the split's second part, stripped. -/
theorem extractIsbnFromLink_of_split (link pre tok : String) (rest : List String)
    (h : pySplit link "/e/" = pre :: tok :: rest) :
    extractIsbnFromLink link = some (pyStrip tok) := by
  unfold extractIsbnFromLink
  rw [pyIn_of_pySplit_cons_cons link "/e/" pre tok rest h]
  simp [h]

/-- Claim-side definition, following C10's words: the entire remainder of the
URL after the first occurrence of `/e/`. -/
def remainderAfterFirstE (s : String) : String :=
  String.intercalate "/e/" ((pySplit s "/e/").drop 1)

/-- Absolute detail-page URL containing two `/e/` markers. -/
def linkC10 : String := "https://www.ibs.it/a/e/9788807034664/e/extra"

/-- Search page whose first result href is `linkC10`. -/
def spC10 : Page :=
  { searchItems := [{ descriptionAnchor := some { href := some linkC10 } }]
    ogUrlMeta := none, coverImg := none }

/-- C10 fails as stated: `split("/e/")[1]` is the segment between the first
and the *next* occurrence of `/e/`, not the entire remainder after the first
occurrence.  On a URL with two markers the code's token stops at the second
marker, and the resolver interpolates the truncated token. -/
theorem c10_counterexample :
    remainderAfterFirstE linkC10 = "9788807034664/e/extra" ∧
    10 ≤ (pyStrip (remainderAfterFirstE linkC10)).length ∧
    extractIsbnFromLink linkC10 = some "9788807034664" ∧
    ("9788807034664" : String) ≠ pyStrip (remainderAfterFirstE linkC10) ∧
    get_cover_from_ibs (mkEnv spC10 dpEmpty) "t" "a"
      = "https://www.ibs.it/images/9788807034664_0_0_536_0_75.jpg" := by
  decide

/-- C10 amended.  Identifier extraction takes the segment of the detail-page
URL between the first occurrence of `/e/` and the next occurrence (or the end
of the string), whitespace-stripped, with no validation of its shape: any
such token of length at least 10 — slashes, query parameters and all — is
accepted and interpolated verbatim into the templated cover URL the resolver
returns. -/
theorem c10_token_between_markers (env : Env) (title author : String)
    (soup : Page) (item : SearchItem) (restI : List SearchItem)
    (anchor : AnchorEl) (href : String) (detail : Page)
    (pre tok : String) (rest : List String)
    (h1 : env.fetch (searchUrl env title author) = .ok soup)
    (h2 : soup.searchItems = item :: restI)
    (h3 : item.descriptionAnchor = some anchor)
    (h4 : anchor.href = some href)
    (h5 : env.fetch (absolutize href) = .ok detail)
    (h6 : pySplit (absolutize href) "/e/" = pre :: tok :: rest)
    (h7 : 10 ≤ (pyStrip tok).length) :
    get_cover_from_ibs env title author
      = "https://www.ibs.it/images/" ++ pyStrip tok ++ "_0_0_536_0_75.jpg" := by
  have hextract0 : extractIsbnFromLink (absolutize href) = some (pyStrip tok) :=
    extractIsbnFromLink_of_split (absolutize href) pre tok rest h6
  have hne : pyStrip tok ≠ "" := by
    intro h0
    rw [h0] at h7
    exact absurd h7 (by decide)
  have hisbn : extractIsbn (absolutize href) detail = some (pyStrip tok) := by
    unfold extractIsbn
    rw [hextract0]
    simp [pyTruthy, hne]
  unfold get_cover_from_ibs
  rw [get_cover_core_templated env title author soup item restI anchor href detail
    (pyStrip tok) h1 h2 h3 h4 h5 hisbn h7]

/-- Search page whose first result href holds a token (between the two `/e/`
markers) full of slashes, a query parameter, and surrounding whitespace. -/
def spC10w : Page :=
  { searchItems := [{ descriptionAnchor := some { href := some "/b/e/ 123/45678?q=9 /e/z" } }]
    ogUrlMeta := none, coverImg := none }

/-- Witness for the amended C10: the messy stripped token is interpolated
verbatim. -/
theorem c10_token_between_markers_witness :
    pySplit (absolutize "/b/e/ 123/45678?q=9 /e/z") "/e/"
      = ["https://www.ibs.it/b", " 123/45678?q=9 ", "z"] ∧
    pyStrip " 123/45678?q=9 " = "123/45678?q=9" ∧
    get_cover_from_ibs (mkEnv spC10w dpEmpty) "t" "a"
      = "https://www.ibs.it/images/" ++ pyStrip " 123/45678?q=9 " ++ "_0_0_536_0_75.jpg" := by
  refine ⟨by decide, by decide, ?_⟩
  exact c10_token_between_markers (mkEnv spC10w dpEmpty) "t" "a" spC10w
    { descriptionAnchor := some { href := some "/b/e/ 123/45678?q=9 /e/z" } } []
    { href := some "/b/e/ 123/45678?q=9 /e/z" } "/b/e/ 123/45678?q=9 /e/z" dpEmpty
    "https://www.ibs.it/b" " 123/45678?q=9 " ["z"]
    rfl rfl rfl rfl rfl (by decide) (by decide)

end Copertine
